import Mathlib

/-!
Verification development for the Freeform submission intake and delivery pipeline.

This file gives a shallow embedding, in Lean 4, of the core components of the
Freeform repository (a Cloudflare-Workers form backend written in TypeScript):

* the abuse filter (`src/services/spam.ts`): honeypot check, blacklist check,
  reCAPTCHA contribution and link-density heuristic, combined by `checkSpam`;
* the fixed-window rate limiter (`src/middleware/rate-limit.ts`):
  `checkRateLimit` and the surrounding middleware, including its client-IP
  extraction from the `CF-Connecting-IP` / `X-Forwarded-For` headers;
* the verification token store (`createVerificationToken`, `verifyToken`,
  `deleteVerificationToken`) over a key/value store, and the
  `GET /verify/:token` route;
* the webhook delivery subsystem (`src/services/webhook.ts`,
  `src/services/webhook-retry.ts`, `src/queue/webhook-consumer.ts`):
  `deliverWebhook`, `calculateRetryDelay`, `shouldRetry`,
  `createRetryMessage`, `processWebhookMessage`, `queueWebhookDelivery`;
* the submission intake route (`src/routes/submit.ts`), modelled as a pure
  function from the parsed form data and the outcomes of its external calls
  (form resolution, reCAPTCHA, email send, queue send) to a record of the
  response and the side effects performed.

JavaScript peculiarities are embedded explicitly: `||` on strings is truthiness
(empty string is falsy), `Math.round` is `⌊x + 1/2⌋`, numbers that can go
negative are `ℤ`/`ℚ`, and I/O outcomes (HTTP responses, thrown exceptions) are
oracle parameters.  String routines (`toLowerCase`, `trim`, `split`,
`includes`) are re-implemented over `List Char`; they agree with the
JavaScript ones on the ASCII data the checks operate on.
-/

/-! ## JavaScript string primitives -/

/-- JS `s.toLowerCase()` (ASCII case mapping; the checks only compare ASCII). -/
def jsToLower (s : String) : String := String.mk (s.data.map Char.toLower)

/-- ASCII whitespace, the fragment of the JS `trim` class the checks encounter. -/
def isWsChar (c : Char) : Bool := c = ' ' || c = '\t' || c = '\n' || c = '\r'

/-- JS `s.trim()`. -/
def jsTrim (s : String) : String :=
  String.mk (((s.data.dropWhile isWsChar).reverse.dropWhile isWsChar).reverse)

def charsPrefixOf : List Char → List Char → Bool
  | [], _ => true
  | _ :: _, [] => false
  | p :: ps, c :: cs => p == c && charsPrefixOf ps cs

def charsContain (pat : List Char) : List Char → Bool
  | [] => charsPrefixOf pat []
  | c :: cs => charsPrefixOf pat (c :: cs) || charsContain pat cs

/-- JS `haystack.includes(needle)`. -/
def jsIncludes (haystack needle : String) : Bool :=
  charsContain needle.data haystack.data

def dedupFirstAux : List String → List String → List String
  | _, [] => []
  | seen, x :: xs =>
    if seen.contains x then dedupFirstAux seen xs
    else x :: dedupFirstAux (x :: seen) xs

/-- JS `[...new Set(l)]`: removes duplicates keeping the first occurrence. -/
def dedupFirst (l : List String) : List String := dedupFirstAux [] l

def splitOnChar (sep : Char) : List Char → List (List Char)
  | [] => [[]]
  | c :: cs =>
    let r := splitOnChar sep cs
    if c == sep then [] :: r
    else
      match r with
      | [] => [[c]]
      | h :: t => (c :: h) :: t

/-- JS `s.split(sep)` for a one-character separator (always non-empty). -/
def jsSplit (s : String) (sep : Char) : List String :=
  (splitOnChar sep s.data).map String.mk

/-- Truthiness of an optional JS string: `undefined`/`null` and `""` are falsy. -/
def jsTruthy (o : Option String) : Bool :=
  match o with
  | some s => s ≠ ""
  | none => false

/-- JS `a || b` on two optional strings, returning the first truthy value. -/
def jsOrOpt (a b : Option String) : Option String :=
  match a with
  | some s => if s = "" then (match b with
                              | some t => if t = "" then none else some t
                              | none => none)
              else some s
  | none => match b with
            | some t => if t = "" then none else some t
            | none => none

/-- JS `a || d` where `a` is an optional string and `d` a string default. -/
def jsOrStr (a : Option String) (d : String) : String :=
  match a with
  | some s => if s = "" then d else s
  | none => d

/-- JS `Math.round`, which is `⌊x + 1/2⌋` (halves round toward positive infinity). -/
def jsRound (x : ℚ) : ℤ := ⌊x + 1 / 2⌋

/-! ## Parsed submissions (`src/types`, `src/utils/parse-form.ts`)

`ParsedFormData.fields` is the ordered user-field record; a value is either a
JS string or some non-string value (a string array from a repeated key, or a
file marker object) — the spam checks only ever inspect the string case. -/

inductive FieldValue
  | str (s : String)
  | nonStr
deriving DecidableEq, Repr

/-- Recognized directive fields (underscore-prefixed), all optional strings. -/
structure SpecialFields where
  _replyto : Option String := none
  _next : Option String := none
  _subject : Option String := none
  _cc : Option String := none
  _blacklist : Option String := none
  _captcha : Option String := none
  _autoresponse : Option String := none
  _template : Option String := none
  _webhook : Option String := none
  _honeypot : Option String := none
  _gotcha : Option String := none
deriving DecidableEq, Repr

structure ParsedFormData where
  fields : List (String × FieldValue)
  specialFields : SpecialFields
deriving DecidableEq, Repr

/-- JS `formData.fields[name]`: record access, keys are unique after parsing. -/
def fieldLookup (fields : List (String × FieldValue)) (name : String) : Option FieldValue :=
  match fields with
  | [] => none
  | (k, v) :: rest => if k = name then some v else fieldLookup rest name

/-! ## Abuse filter (`src/services/spam.ts`) -/

def HONEYPOT_FIELDS : List String :=
  ["_honeypot", "_gotcha", "honeypot", "hp", "website", "url", "fax"]

def DEFAULT_BLACKLIST : List String :=
  ["viagra", "casino", "lottery", "prince nigeria", "wire transfer",
   "bitcoin investment", "crypto doubling"]

structure SpamCheckResult where
  isSpam : Bool
  score : ℤ
  reasons : List String
deriving DecidableEq, Repr

/-- Source `checkHoneypot`: the special `_honeypot`/`_gotcha` fields (JS
truthiness), then each decoy field name whose value is a truthy string with a
non-empty trim. -/
def checkHoneypot (formData : ParsedFormData) : Bool :=
  jsTruthy formData.specialFields._honeypot ||
  jsTruthy formData.specialFields._gotcha ||
  HONEYPOT_FIELDS.any (fun field =>
    match fieldLookup formData.fields field with
    | some (FieldValue.str v) => v ≠ "" && jsTrim v ≠ ""
    | _ => false)

/-- Source `quickSpamCheck` (honeypot only, synchronous). -/
def quickSpamCheck (formData : ParsedFormData) : Bool := checkHoneypot formData

/-- The blacklist actually scanned: the defaults plus the comma-separated
custom list (each entry trimmed and lowercased); `customBlacklist` is subject
to JS truthiness. -/
def effectiveBlacklist (customBlacklist : Option String) : List String :=
  DEFAULT_BLACKLIST ++
    (match customBlacklist with
     | some s => if s = "" then [] else (jsSplit s ',').map (fun p => jsToLower (jsTrim p))
     | none => [])

/-- Source `checkBlacklist`: for every string-valued field (in order), push
every blacklist phrase contained in its lowercased value, then dedupe. -/
def checkBlacklist (formData : ParsedFormData) (customBlacklist : Option String) : List String :=
  let blacklist := effectiveBlacklist customBlacklist
  let hits := formData.fields.foldl (fun acc kv =>
    match kv.2 with
    | FieldValue.str v => acc ++ blacklist.filter (fun phrase => jsIncludes (jsToLower v) phrase)
    | FieldValue.nonStr => acc) []
  dedupFirst hits

/-- Result of `verifyRecaptcha` (an external HTTP call): the oracle value the
pure part of `checkSpam` branches on.  A missing secret yields
`⟨true, 1.0⟩`, a thrown fetch error yields `⟨false, 0⟩` inside
`verifyRecaptcha` itself, so every outcome is covered by this record. -/
structure RecaptchaResult where
  success : Bool
  score : ℚ
deriving DecidableEq, Repr

/-- Score block 1 of `checkSpam`: honeypot adds 80. -/
def honeypotContribution (formData : ParsedFormData) : ℤ :=
  if checkHoneypot formData then 80 else 0

/-- Score block 2 of `checkSpam`: 20 per distinct matched phrase, capped at 3. -/
def blacklistContribution (formData : ParsedFormData) : ℤ :=
  let m := checkBlacklist formData formData.specialFields._blacklist
  if 0 < m.length then 20 * min (m.length : ℤ) 3 else 0

/-- Score block 3 of `checkSpam`: only when a captcha token is present; 50 on a
failed verification, `round((threshold - score) * 100)` on a low score. -/
def recaptchaContribution (formData : ParsedFormData) (recaptcha : RecaptchaResult)
    (recaptchaThreshold : ℚ) : ℤ :=
  if jsTruthy formData.specialFields._captcha then
    if recaptcha.success = false then 50
    else if recaptcha.score < recaptchaThreshold then
      jsRound ((recaptchaThreshold - recaptcha.score) * 100)
    else 0
  else 0

def linkScanFuel : Nat → List Char → Nat
  | 0, _ => 0
  | _, [] => 0
  | fuel + 1, c :: cs =>
    if charsPrefixOf "https://".data (c :: cs) then 1 + linkScanFuel fuel ((c :: cs).drop 8)
    else if charsPrefixOf "http://".data (c :: cs) then 1 + linkScanFuel fuel ((c :: cs).drop 7)
    else linkScanFuel fuel cs

/-- Number of matches of `https?://` with the `g` flag: scan left to right and
continue after each match's end.  The fuel argument (initially the text
length) only serves structural recursion; at least one character is consumed
per step, so it never runs out. -/
def linkScan (l : List Char) : Nat := linkScanFuel l.length l

def joinSpace : List String → String
  | [] => ""
  | [s] => s
  | s :: rest => s ++ " " ++ joinSpace rest

/-- The `allText` link count of `checkSpam`: string field values joined with a
space, matched case-insensitively (the `i` flag, embedded by lowercasing). -/
def linkCount (formData : ParsedFormData) : Nat :=
  let allText := joinSpace (formData.fields.filterMap (fun kv =>
    match kv.2 with
    | FieldValue.str v => some v
    | FieldValue.nonStr => none))
  linkScan (jsToLower allText).data

/-- Score block 4 of `checkSpam`: `10 * min(linkCount - 3, 5)` once the count
exceeds 3. -/
def linkContribution (formData : ParsedFormData) : ℤ :=
  let c := linkCount formData
  if 3 < c then 10 * min ((c : ℤ) - 3) 5 else 0

/-- Reasons list of `checkSpam`, pushed in source order. -/
def spamReasons (formData : ParsedFormData) (recaptcha : RecaptchaResult)
    (recaptchaThreshold : ℚ) : List String :=
  (if checkHoneypot formData then ["honeypot_triggered"] else []) ++
  (let m := checkBlacklist formData formData.specialFields._blacklist
   if 0 < m.length then ["blacklist:" ++ String.intercalate "," m] else []) ++
  (if jsTruthy formData.specialFields._captcha then
     if recaptcha.success = false then ["recaptcha_failed"]
     else if recaptcha.score < recaptchaThreshold then
       ["recaptcha_low_score:" ++ toString recaptcha.score]
     else []
   else []) ++
  (let c := linkCount formData
   if 3 < c then ["too_many_links:" ++ toString c] else [])

/-- Source `checkSpam`, pure in the oracle outcome of `verifyRecaptcha`: sum
the four contributions, clamp with `Math.min(100, score)` and set
`isSpam = score >= 50`. -/
def checkSpam (formData : ParsedFormData) (recaptcha : RecaptchaResult)
    (recaptchaThreshold : ℚ) : SpamCheckResult :=
  let score := min 100 (honeypotContribution formData + blacklistContribution formData +
    recaptchaContribution formData recaptcha recaptchaThreshold + linkContribution formData)
  { isSpam := decide (50 ≤ score),
    score := score,
    reasons := spamReasons formData recaptcha recaptchaThreshold }

/-! ## Rate limiter (`src/middleware/rate-limit.ts`)

The KV store is modelled per key: `Option RateWindowData` is the stored JSON
value for the one key a middleware invocation touches (`none` when absent).
The entry's TTL of 120 s is twice the 60 s window, so within-window requests
never see a premature eviction; expiry beyond the window coincides with the
`data.window < now - RATE_LIMIT_WINDOW` staleness test and needs no separate
model. -/

def RATE_LIMIT_WINDOW : ℤ := 60 * 1000

def DEFAULT_RATE_LIMIT : Nat := 10

def STRICT_RATE_LIMIT : Nat := 5

structure RateWindowData where
  count : Nat
  window : ℤ
deriving DecidableEq, Repr

structure RateLimitResult where
  allowed : Bool
  remaining : ℤ
  reset : ℤ
deriving DecidableEq, Repr

/-- Result of one `checkRateLimit` call: the returned record, the KV entry
afterwards, and whether a `kv.put` was issued. -/
structure RateCheckOut where
  result : RateLimitResult
  state : Option RateWindowData
  wrote : Bool
deriving DecidableEq, Repr

/-- Source `checkRateLimit`: fresh window when absent or stale, deny at
`count >= limit` reporting `reset = window + 60s`, else increment. -/
def checkRateLimit (data : Option RateWindowData) (limit : Nat) (now : ℤ) : RateCheckOut :=
  let fresh : RateCheckOut :=
    { result := { allowed := true, remaining := (limit : ℤ) - 1, reset := now + RATE_LIMIT_WINDOW },
      state := some { count := 1, window := now },
      wrote := true }
  match data with
  | none => fresh
  | some d =>
    if d.window < now - RATE_LIMIT_WINDOW then fresh
    else if limit ≤ d.count then
      { result := { allowed := false, remaining := 0, reset := d.window + RATE_LIMIT_WINDOW },
        state := some d,
        wrote := false }
    else
      { result := { allowed := true, remaining := (limit : ℤ) - d.count - 1,
                    reset := d.window + RATE_LIMIT_WINDOW },
        state := some { count := d.count + 1, window := d.window },
        wrote := true }

/-- KV entry for one key after `n` requests at times `time 0, …, time (n-1)`. -/
def rateState (limit : Nat) (time : Nat → ℤ) : Nat → Option RateWindowData
  | 0 => none
  | n + 1 => (checkRateLimit (rateState limit time n) limit (time n)).state

/-- Result returned to the `(n+1)`-th request (requests are numbered from 1,
so index `n` is request `n + 1`). -/
def rateResult (limit : Nat) (time : Nat → ℤ) (n : Nat) : RateLimitResult :=
  (checkRateLimit (rateState limit time n) limit (time n)).result

/-- The `CF-Connecting-IP` part of the middleware's IP extraction (JS `||`
skips an empty header value). -/
def cfIp (header : Option String) : Option String :=
  match header with
  | some s => if s = "" then none else some s
  | none => none

/-- The `X-Forwarded-For` part: `header?.split(",")[0]?.trim()`, empty result
being falsy. -/
def xffIp (header : Option String) : Option String :=
  match header with
  | some s =>
    let first := jsTrim ((jsSplit s ',').headD "")
    if first = "" then none else some first
  | none => none

/-- Source IP extraction: `cf || xff-first || "unknown"`. -/
def clientIp (cf xff : Option String) : String :=
  match cfIp cf with
  | some s => s
  | none =>
    match xffIp xff with
    | some s => s
    | none => "unknown"

/-- Source `getRateLimitKey` (the `target` route param is the optional form id). -/
def getRateLimitKey (ip : String) (formId : Option String) : String :=
  "rate:" ++ ip ++ (match formId with
                    | some f => if f = "" then "" else ":" ++ f
                    | none => "")

/-- JS `Math.ceil(a / b)` on integers (used for the `Retry-After` header). -/
def jsCeilDiv (a b : ℤ) : ℤ := -(Int.fdiv (-a) b)

/-- Observable behaviour of one `rateLimitMiddleware` invocation: KV traffic,
response headers set, whether `next()` ran, whether the 429 was returned, and
the KV entry afterwards for the touched key (`key = none` when skipped). -/
structure MiddlewareOutcome where
  kvReads : Nat
  kvWrites : Nat
  headersSet : List (String × String)
  proceeded : Bool
  rateLimited : Bool
  key : Option String
  state : Option RateWindowData
deriving DecidableEq, Repr

/-- Source `rateLimitMiddleware` body: extract the IP, skip entirely for
`"unknown"`, otherwise run `checkRateLimit`, set the `X-RateLimit-*` headers,
and either call `next()` or answer 429 with `Retry-After`. -/
def rateLimitMiddleware (limit : Nat) (cf xff target : Option String)
    (kvState : Option RateWindowData) (now : ℤ) : MiddlewareOutcome :=
  let ip := clientIp cf xff
  if ip = "unknown" then
    { kvReads := 0, kvWrites := 0, headersSet := [], proceeded := true,
      rateLimited := false, key := none, state := kvState }
  else
    let key := getRateLimitKey ip target
    let out := checkRateLimit kvState limit now
    let baseHeaders := [("X-RateLimit-Limit", toString limit),
                        ("X-RateLimit-Remaining", toString out.result.remaining),
                        ("X-RateLimit-Reset", toString (Int.fdiv out.result.reset 1000))]
    if out.result.allowed then
      { kvReads := 1, kvWrites := if out.wrote then 1 else 0, headersSet := baseHeaders,
        proceeded := true, rateLimited := false, key := some key, state := out.state }
    else
      { kvReads := 1, kvWrites := 0,
        headersSet := baseHeaders ++
          [("Retry-After", toString (jsCeilDiv (out.result.reset - now) 1000))],
        proceeded := false, rateLimited := true, key := some key, state := out.state }

/-! ## Webhook delivery (`src/services/webhook.ts`, `src/services/webhook-retry.ts`,
queue consumer)

The delivery record store is modelled per delivery id: a `WebhookDelivery`
value stands for the single row the functions read and update.  The outbound
HTTP call is an oracle (`HttpOutcome`). -/

inductive WebhookStatus
  | pending
  | success
  | failed
deriving DecidableEq, Repr

structure WebhookDelivery where
  id : String
  submission_id : String
  url : String
  status : WebhookStatus
  attempts : Nat
  last_error : Option String
  next_retry_at : Option String
deriving DecidableEq, Repr

/-- Partial update record of `updateWebhookDelivery` (`undefined` fields are
left out of the SQL `SET` list). -/
structure WebhookDeliveryUpdate where
  status : Option WebhookStatus := none
  attempts : Option Nat := none
  last_error : Option (Option String) := none
  next_retry_at : Option (Option String) := none
deriving DecidableEq, Repr

def updateWebhookDelivery (rec : WebhookDelivery) (u : WebhookDeliveryUpdate) : WebhookDelivery :=
  { rec with
    status := u.status.getD rec.status,
    attempts := u.attempts.getD rec.attempts,
    last_error := u.last_error.getD rec.last_error,
    next_retry_at := u.next_retry_at.getD rec.next_retry_at }

structure WebhookPayloadMeta where
  form_id : String
  submission_id : String
  submitted_at : String
  ip_address : Option String
  tracking : Option (List (String × String))
deriving DecidableEq, Repr

structure WebhookPayload where
  form_data : List (String × FieldValue)
  meta : WebhookPayloadMeta
deriving DecidableEq, Repr

structure WebhookQueueMessage where
  delivery_id : String
  submission_id : String
  url : String
  payload : WebhookPayload
  attempt : Nat
deriving DecidableEq, Repr

/-- Oracle outcome of the outbound `fetch`: a 2xx response (`response.ok`), a
non-2xx response with its body text, or a thrown network error. -/
inductive HttpOutcome
  | ok
  | httpError (status : Nat) (text : String)
  | netError (msg : String)
deriving DecidableEq, Repr

/-- JS `errorText.slice(0, 200)`. -/
def truncate200 (s : String) : String := String.mk (s.data.take 200)

/-- Result of one `deliverWebhook` call: what it returned, how many HTTP
requests it sent, and the delivery row afterwards. -/
structure DeliverOutcome where
  success : Bool
  error : Option String
  httpCalls : Nat
  record : WebhookDelivery
deriving DecidableEq, Repr

/-- Source `deliverWebhook`: sign and POST the payload unconditionally (the
stored record is never consulted first), then mark success, or record the
truncated error and the attempt count, leaving the status untouched. -/
def deliverWebhook (rec : WebhookDelivery) (attempt : Nat) (http : HttpOutcome) : DeliverOutcome :=
  match http with
  | HttpOutcome.ok =>
    { success := true, error := none, httpCalls := 1,
      record := updateWebhookDelivery rec
        { status := some WebhookStatus.success, attempts := some attempt, last_error := some none } }
  | HttpOutcome.httpError status text =>
    let error := "HTTP " ++ toString status ++ ": " ++ truncate200 text
    { success := false, error := some error, httpCalls := 1,
      record := updateWebhookDelivery rec
        { attempts := some attempt, last_error := some (some error) } }
  | HttpOutcome.netError msg =>
    { success := false, error := some msg, httpCalls := 1,
      record := updateWebhookDelivery rec
        { attempts := some attempt, last_error := some (some msg) } }

/-- Source `markWebhookFailed`. -/
def markWebhookFailed (rec : WebhookDelivery) (error : String) : WebhookDelivery :=
  updateWebhookDelivery rec
    { status := some WebhookStatus.failed, last_error := some (some error) }

def MAX_RETRY_ATTEMPTS : Nat := 5

def BASE_DELAY_SECONDS : ℚ := 1

/-- Source `calculateRetryDelay`: `BASE_DELAY_SECONDS * Math.pow(2, attempt - 1)`
(`Math.pow` accepts a negative exponent, hence the `ℤ`-valued power). -/
def calculateRetryDelay (attempt : Nat) : ℚ :=
  BASE_DELAY_SECONDS * (2 : ℚ) ^ ((attempt : ℤ) - 1)

/-- Source `shouldRetry`. -/
def shouldRetry (attempt : Nat) : Bool := attempt < MAX_RETRY_ATTEMPTS

/-- Source `createRetryMessage`. -/
def createRetryMessage (original : WebhookQueueMessage) (nextAttempt : Nat) : WebhookQueueMessage :=
  { original with attempt := nextAttempt }

/-- Observable behaviour of one `processWebhookMessage` run: HTTP requests
sent, the delivery row afterwards, and the retry task (with its
`delaySeconds`) enqueued, if any. -/
structure ProcessOutcome where
  httpCalls : Nat
  record : WebhookDelivery
  enqueued : Option (WebhookQueueMessage × ℚ)
deriving DecidableEq, Repr

/-- Source `processWebhookMessage`: always call `deliverWebhook`; on failure,
either enqueue `createRetryMessage msg (attempt+1)` delayed by
`calculateRetryDelay (attempt+1)`, or mark the record failed. -/
def processWebhookMessage (msg : WebhookQueueMessage) (rec : WebhookDelivery)
    (http : HttpOutcome) : ProcessOutcome :=
  let result := deliverWebhook rec msg.attempt http
  if result.success then
    { httpCalls := result.httpCalls, record := result.record, enqueued := none }
  else
    let error := jsOrStr result.error "Unknown error"
    if shouldRetry msg.attempt then
      { httpCalls := result.httpCalls, record := result.record,
        enqueued := some (createRetryMessage msg (msg.attempt + 1),
                          calculateRetryDelay (msg.attempt + 1)) }
    else
      { httpCalls := result.httpCalls, record := markWebhookFailed result.record error,
        enqueued := none }

structure Submission where
  id : String
  form_id : String
  data : List (String × FieldValue)
  created_at : String
  ip_address : Option String
  tracking : Option (List (String × String))
deriving DecidableEq, Repr

/-- Source `queueWebhookDelivery`: create the delivery row
(`status = pending, attempts = 0`) and the first queue task (`attempt = 1`). -/
def queueWebhookDelivery (submission : Submission) (webhookUrl deliveryId : String) :
    WebhookDelivery × WebhookQueueMessage :=
  let delivery : WebhookDelivery :=
    { id := deliveryId, submission_id := submission.id, url := webhookUrl,
      status := WebhookStatus.pending, attempts := 0, last_error := none, next_retry_at := none }
  let payload : WebhookPayload :=
    { form_data := submission.data,
      meta := { form_id := submission.form_id, submission_id := submission.id,
                submitted_at := submission.created_at, ip_address := submission.ip_address,
                tracking := submission.tracking } }
  (delivery,
   { delivery_id := deliveryId, submission_id := submission.id, url := webhookUrl,
     payload := payload, attempt := 1 })

/-! ## Verification token store (`createVerificationToken` / `verifyToken` /
`deleteVerificationToken`) and the `GET /verify/:token` route

The shared KV namespace is an association list from full key strings
(`"verify:" ++ token` and `"verify:email:" ++ email`) to stored values.  A
stored value is either the JSON-serialized `VerificationData` object or, for
the reverse mapping, the raw token string.  TTLs are not modelled: every claim
below is about accesses before any expiry. -/

structure VerificationData where
  email : String
  submission_id : String
  form_data : ParsedFormData
  created_at : String
deriving DecidableEq, Repr

inductive KVVal
  | vdata (d : VerificationData)
  | vtok (t : String)
deriving DecidableEq, Repr

def kvGet (kv : List (String × KVVal)) (k : String) : Option KVVal :=
  match kv with
  | [] => none
  | (k', v) :: rest => if k' = k then some v else kvGet rest k

def kvDelete (kv : List (String × KVVal)) (k : String) : List (String × KVVal) :=
  match kv with
  | [] => []
  | (k', v) :: rest => if k' = k then kvDelete rest k else (k', v) :: kvDelete rest k

def kvPut (kv : List (String × KVVal)) (k : String) (v : KVVal) : List (String × KVVal) :=
  (k, v) :: kvDelete kv k

def isDigit09 (c : Char) : Bool := '0' ≤ c && c ≤ '9'

def expTail : List Char → Bool
  | [] => true
  | 'e' :: ds => ds ≠ [] && ds.all isDigit09
  | _ => false

/-- Whether `JSON.parse` succeeds on a raw token string.  `generateToken`
produces lowercase-hex strings, and within that alphabet the only valid JSON
values are number literals: an integer part (`0`, or a nonzero digit followed
by digits) optionally followed by an exponent `e<digits>` — hex has no `.`,
`+`, `-`, quote, brace or bracket, and `true`/`false`/`null` need non-hex
letters. -/
def jsonNumberLike (s : String) : Bool :=
  match s.data with
  | [] => false
  | '0' :: rest => expTail rest
  | c :: rest => isDigit09 c && expTail (rest.dropWhile isDigit09)

/-- Source `createVerificationToken`, with the random `generateToken` output
and the timestamp as oracle arguments: store the data under
`verify:<token>` and the token under `verify:email:<normalized email>`. -/
def createVerificationToken (kv : List (String × KVVal)) (email submissionId : String)
    (formData : ParsedFormData) (token createdAt : String) :
    String × List (String × KVVal) :=
  let e := jsTrim (jsToLower email)
  let data : VerificationData :=
    { email := e, submission_id := submissionId, form_data := formData, created_at := createdAt }
  let kv1 := kvPut kv ("verify:" ++ token) (KVVal.vdata data)
  let kv2 := kvPut kv1 ("verify:email:" ++ e) (KVVal.vtok token)
  (token, kv2)

/-- What `verifyToken` hands back to its caller: the parsed object, a parsed
non-object (the pathological case of a raw token string that is itself valid
JSON), or null. -/
inductive VerifyLookup
  | found (d : VerificationData)
  | foundNonObject
  | notFound
deriving DecidableEq, Repr

/-- Source `verifyToken`: look up `verify:<token>` only (the email reverse
mapping is never consulted), `JSON.parse` the stored string, `null` on a miss
or a parse error. -/
def verifyToken (kv : List (String × KVVal)) (token : String) : VerifyLookup :=
  match kvGet kv ("verify:" ++ token) with
  | none => VerifyLookup.notFound
  | some (KVVal.vdata d) => VerifyLookup.found d
  | some (KVVal.vtok t) =>
    if jsonNumberLike t then VerifyLookup.foundNonObject else VerifyLookup.notFound

/-- Source `deleteVerificationToken`: delete the forward key and the reverse
key for the (re-normalized) email. -/
def deleteVerificationToken (kv : List (String × KVVal)) (token email : String) :
    List (String × KVVal) :=
  kvDelete (kvDelete kv ("verify:" ++ token)) ("verify:email:" ++ jsTrim (jsToLower email))

/-! ## Forms (`src/services/form.ts`, `src/services/db.ts`) -/

structure FormSettings where
  default_subject : String
  default_template : Option String
  recaptcha_enabled : Bool
  recaptcha_threshold : ℚ
  allowed_origins : List String
  webhook_url : Option String
  cc_emails : List String
deriving DecidableEq, Repr

structure Form where
  id : String
  email : String
  email_hash : String
  verified_at : Option String
  settings : FormSettings
  user_id : Option String
deriving DecidableEq, Repr

/-- Source `isFormVerified`. -/
def isFormVerified (form : Form) : Bool := form.verified_at != none

/-! ## Verify route (`src/routes/verify.ts`) -/

inductive VerifyResponse
  | expiredPage
  | successPage (email : String)
  | validationError
  | serverError
deriving DecidableEq, Repr

/-- Observable behaviour of one `GET /verify/:token` request: the page
rendered, the form marked verified (if any), and the KV store afterwards. -/
structure VerifyOutcome where
  response : VerifyResponse
  verifiedFormId : Option String
  kv : List (String × KVVal)
deriving DecidableEq, Repr

/-- Source verify route: `verifyToken`, expired page on null; `resolveForm`
(the database is the oracle `resolve`); `verifyForm`; then delete the token.
In the pathological non-object case `data.email` is `undefined` and
`resolveForm` throws a `TypeError` (`target.startsWith` on `undefined`),
surfaced as a 500 by the error middleware. -/
def verifyRoute (kv : List (String × KVVal)) (resolve : String → Option Form)
    (token : String) : VerifyOutcome :=
  match verifyToken kv token with
  | VerifyLookup.notFound =>
    { response := VerifyResponse.expiredPage, verifiedFormId := none, kv := kv }
  | VerifyLookup.foundNonObject =>
    { response := VerifyResponse.serverError, verifiedFormId := none, kv := kv }
  | VerifyLookup.found d =>
    match resolve d.email with
    | none => { response := VerifyResponse.validationError, verifiedFormId := none, kv := kv }
    | some form =>
      { response := VerifyResponse.successPage d.email,
        verifiedFormId := some form.id,
        kv := deleteVerificationToken kv token d.email }

/-! ## Submission intake route (`src/routes/submit.ts`)

The handler is a pure function of the parsed form data and oracle outcomes of
its awaited calls: `resolveForm` (the database row, with its `isNew` flag),
`verifyRecaptcha`, `sendSubmissionEmail` (throws or not), the queue send
inside `queueWebhook` (throws or not), plus the generated ids.  The outcome
records the response and every side effect the request performed. -/

inductive SubmitResponse
  | jsonSuccess
  | jsonSuccessWithId (id : String)
  | notFoundError
  | verificationPendingHtml (email : String)
  | thankYouHtml (email : String)
  | redirectTo (url : String)
  | serverError
deriving DecidableEq, Repr

structure SubmitOutcome where
  response : SubmitResponse
  formsCreated : Nat
  submissionsCreated : Nat
  verificationTokensIssued : Nat
  verificationEmailsSent : Nat
  notificationEmailsSent : Nat
  webhookDeliveriesCreated : Nat
  webhookTasksEnqueued : Nat
deriving DecidableEq, Repr

/-- The webhook target of a verified submission:
`formData.specialFields._webhook || form.settings.webhook_url`. -/
def effectiveWebhookUrl (formData : ParsedFormData) (form : Form) : Option String :=
  jsOrOpt formData.specialFields._webhook form.settings.webhook_url

/-- Tail of the handler once all side effects succeeded: redirect to a
validated `_next` URL, JSON for AJAX callers, else the thank-you page.
`validatedNext` is the oracle outcome of `validateRedirectUrl` (a `URL`-parser
based check); `isAjax` abbreviates the `X-Requested-With` / `Accept` test. -/
def submitRespond (formData : ParsedFormData) (form : Form) (validatedNext : Option String)
    (isAjax : Bool) (submissionId : String) : SubmitResponse :=
  if jsTruthy formData.specialFields._next then
    match validatedNext with
    | some u => SubmitResponse.redirectTo u
    | none =>
      if isAjax then SubmitResponse.jsonSuccessWithId submissionId
      else SubmitResponse.thankYouHtml form.email
  else
    if isAjax then SubmitResponse.jsonSuccessWithId submissionId
    else SubmitResponse.thankYouHtml form.email

/-- Source `POST /:target` handler.  Steps in source order: honeypot quick
check (generic success, nothing persisted); `resolveForm` (404 when
unresolvable; `isNew` counts the auto-created form); full `checkSpam`;
`createSubmission` (also for spam, for audit); spam → generic success;
unverified form → verification token + email + pending page; verified form →
notification email (a throw surfaces as a request error), then
`queueWebhook` when a webhook URL is configured — the enqueue is awaited, so
a throw there also surfaces as a request error. -/
def submitHandler (formData : ParsedFormData) (resolved : Option (Form × Bool))
    (recaptcha : RecaptchaResult) (emailSendOk : Bool) (queueSendOk : Bool)
    (validatedNext : Option String) (isAjax : Bool) (submissionId : String) : SubmitOutcome :=
  if quickSpamCheck formData then
    { response := SubmitResponse.jsonSuccess, formsCreated := 0, submissionsCreated := 0,
      verificationTokensIssued := 0, verificationEmailsSent := 0, notificationEmailsSent := 0,
      webhookDeliveriesCreated := 0, webhookTasksEnqueued := 0 }
  else
    match resolved with
    | none =>
      { response := SubmitResponse.notFoundError, formsCreated := 0, submissionsCreated := 0,
        verificationTokensIssued := 0, verificationEmailsSent := 0, notificationEmailsSent := 0,
        webhookDeliveriesCreated := 0, webhookTasksEnqueued := 0 }
    | some (form, isNew) =>
      let fc : Nat := if isNew then 1 else 0
      if (checkSpam formData recaptcha form.settings.recaptcha_threshold).isSpam then
        { response := SubmitResponse.jsonSuccess, formsCreated := fc, submissionsCreated := 1,
          verificationTokensIssued := 0, verificationEmailsSent := 0,
          notificationEmailsSent := 0, webhookDeliveriesCreated := 0, webhookTasksEnqueued := 0 }
      else if isFormVerified form = false then
        { response := SubmitResponse.verificationPendingHtml form.email, formsCreated := fc,
          submissionsCreated := 1, verificationTokensIssued := 1, verificationEmailsSent := 1,
          notificationEmailsSent := 0, webhookDeliveriesCreated := 0, webhookTasksEnqueued := 0 }
      else if emailSendOk = false then
        { response := SubmitResponse.serverError, formsCreated := fc, submissionsCreated := 1,
          verificationTokensIssued := 0, verificationEmailsSent := 0,
          notificationEmailsSent := 0, webhookDeliveriesCreated := 0, webhookTasksEnqueued := 0 }
      else
        match effectiveWebhookUrl formData form with
        | some _ =>
          if queueSendOk then
            { response := submitRespond formData form validatedNext isAjax submissionId,
              formsCreated := fc, submissionsCreated := 1, verificationTokensIssued := 0,
              verificationEmailsSent := 0, notificationEmailsSent := 1,
              webhookDeliveriesCreated := 1, webhookTasksEnqueued := 1 }
          else
            { response := SubmitResponse.serverError, formsCreated := fc,
              submissionsCreated := 1, verificationTokensIssued := 0,
              verificationEmailsSent := 0, notificationEmailsSent := 1,
              webhookDeliveriesCreated := 1, webhookTasksEnqueued := 0 }
        | none =>
          { response := submitRespond formData form validatedNext isAjax submissionId,
            formsCreated := fc, submissionsCreated := 1, verificationTokensIssued := 0,
            verificationEmailsSent := 0, notificationEmailsSent := 1,
            webhookDeliveriesCreated := 0, webhookTasksEnqueued := 0 }

/-! ## Helper lemmas -/

theorem string_append_right_inj (a b c : String) : a ++ b = a ++ c ↔ b = c := by
  cases a with
  | mk la =>
    cases b with
    | mk lb =>
      cases c with
      | mk lc =>
        constructor
        · intro h
          have h2 : la ++ lb = la ++ lc := congrArg String.data h
          exact congrArg String.mk (List.append_cancel_left h2)
        · intro h
          rw [h]

theorem string_append_assoc (a b c : String) : (a ++ b) ++ c = a ++ (b ++ c) := by
  cases a with
  | mk la =>
    cases b with
    | mk lb =>
      cases c with
      | mk lc =>
        show String.mk ((la ++ lb) ++ lc) = String.mk (la ++ (lb ++ lc))
        rw [List.append_assoc]

/-- The KV entry after `n` within-window requests from one key is
`{count := n, window := time 0}` for `1 ≤ n ≤ limit`. -/
theorem rateState_count (limit : Nat) (time : Nat → ℤ)
    (hwin : ∀ i, time 0 ≤ time i ∧ time i ≤ time 0 + RATE_LIMIT_WINDOW) :
    ∀ n, 1 ≤ n → n ≤ limit → rateState limit time n = some ⟨n, time 0⟩ := by
  intro n
  induction n with
  | zero => intro h; omega
  | succ n ih =>
    intro _ hle
    match hn : n with
    | 0 =>
      simp [rateState, checkRateLimit]
    | m + 1 =>
      rw [rateState, ih (by omega) (by omega)]
      have h1 := (hwin (m + 1)).1
      have h2 := (hwin (m + 1)).2
      simp only [checkRateLimit]
      rw [if_neg (by omega), if_neg (by omega)]

/-- C5: with limit `L`, within one 60-second window the L-th request is allowed
with `remaining = 0` and the (L+1)-th is denied with
`reset = window start + 60 s`.  Request `k` is `rateResult` at index `k - 1`. -/
theorem claim_C5_rate_limit_window (L : Nat) (time : Nat → ℤ) (hL : 0 < L)
    (hwin : ∀ i, time 0 ≤ time i ∧ time i ≤ time 0 + RATE_LIMIT_WINDOW) :
    (rateResult L time (L - 1)).allowed = true ∧
    (rateResult L time (L - 1)).remaining = 0 ∧
    (rateResult L time L).allowed = false ∧
    (rateResult L time L).reset = time 0 + RATE_LIMIT_WINDOW := by
  have hstateL : rateState L time L = some ⟨L, time 0⟩ :=
    rateState_count L time hwin L hL (le_refl L)
  have hdeny : rateResult L time L =
      { allowed := false, remaining := 0, reset := time 0 + RATE_LIMIT_WINDOW } := by
    rw [rateResult, hstateL]
    have h1 := (hwin L).1
    have h2 := (hwin L).2
    simp only [checkRateLimit]
    rw [if_neg (by omega), if_pos (le_refl L)]
  rcases Nat.lt_or_ge 1 L with h2L | h1L
  · have hstate : rateState L time (L - 1) = some ⟨L - 1, time 0⟩ :=
      rateState_count L time hwin (L - 1) (by omega) (by omega)
    have hres : rateResult L time (L - 1) =
        { allowed := true, remaining := (L : ℤ) - ((L - 1 : ℕ) : ℤ) - 1,
          reset := time 0 + RATE_LIMIT_WINDOW } := by
      rw [rateResult, hstate]
      have h1 := (hwin (L - 1)).1
      have h2 := (hwin (L - 1)).2
      simp only [checkRateLimit]
      rw [if_neg (by omega), if_neg (by omega)]
    refine ⟨by rw [hres], ?_, by rw [hdeny], by rw [hdeny]⟩
    rw [hres]
    have : ((L - 1 : ℕ) : ℤ) = (L : ℤ) - 1 := by omega
    simp [this]
  · have hL1 : L = 1 := by omega
    subst hL1
    refine ⟨rfl, by norm_num [rateResult, rateState, checkRateLimit],
      by rw [hdeny], by rw [hdeny]⟩

/-- Witness for C5 at `L = 3` with all four requests at time 0. -/
theorem claim_C5_witness :
    0 < 3 ∧
    ((rateResult 3 (fun _ => 0) 2).allowed = true ∧
     (rateResult 3 (fun _ => 0) 2).remaining = 0 ∧
     (rateResult 3 (fun _ => 0) 3).allowed = false ∧
     (rateResult 3 (fun _ => 0) 3).reset = (0 : ℤ) + RATE_LIMIT_WINDOW) :=
  ⟨by decide,
   claim_C5_rate_limit_window 3 (fun _ => 0) (by decide)
     (fun _ => ⟨le_refl 0, by norm_num [RATE_LIMIT_WINDOW]⟩)⟩

/-- C10: when neither the `CF-Connecting-IP` header nor the `X-Forwarded-For`
header yields a client IP, the middleware performs no KV read or write, sets
no headers, and just calls `next()`. -/
theorem claim_C10_unknown_ip_skips (limit : Nat) (cf xff target : Option String)
    (kvState : Option RateWindowData) (now : ℤ)
    (hcf : cfIp cf = none) (hxff : xffIp xff = none) :
    rateLimitMiddleware limit cf xff target kvState now =
      { kvReads := 0, kvWrites := 0, headersSet := [], proceeded := true,
        rateLimited := false, key := none, state := kvState } := by
  have hip : clientIp cf xff = "unknown" := by
    rw [clientIp, hcf, hxff]
  rw [rateLimitMiddleware]
  simp [hip]

/-- Witness for C10: no `CF-Connecting-IP`, and an `X-Forwarded-For` whose
first entry trims to the empty string. -/
theorem claim_C10_witness :
    cfIp none = none ∧ xffIp (some " , 1.2.3.4") = none ∧
    rateLimitMiddleware 10 none (some " , 1.2.3.4") (some "form-1")
        (some { count := 3, window := 17 }) 1000 =
      { kvReads := 0, kvWrites := 0, headersSet := [], proceeded := true,
        rateLimited := false, key := none, state := some { count := 3, window := 17 } } :=
  ⟨by decide, by decide,
   claim_C10_unknown_ip_skips 10 none (some " , 1.2.3.4") (some "form-1")
     (some { count := 3, window := 17 }) 1000 (by decide) (by decide)⟩

/-- C7: for every submission and reCAPTCHA outcome, `isSpam` holds exactly when
the score is at least 50, and the returned score lies in `[0, 100]`. -/
theorem claim_C7_spam_threshold_and_clamp (fd : ParsedFormData) (recaptcha : RecaptchaResult)
    (threshold : ℚ) :
    ((checkSpam fd recaptcha threshold).isSpam = true ↔
      50 ≤ (checkSpam fd recaptcha threshold).score) ∧
    0 ≤ (checkSpam fd recaptcha threshold).score ∧
    (checkSpam fd recaptcha threshold).score ≤ 100 := by
  have hh : 0 ≤ honeypotContribution fd := by
    rw [honeypotContribution]
    split <;> norm_num
  have hb : 0 ≤ blacklistContribution fd := by
    simp only [blacklistContribution]
    split
    · exact mul_nonneg (by norm_num) (le_min (Int.natCast_nonneg _) (by norm_num))
    · exact le_refl 0
  have hr : 0 ≤ recaptchaContribution fd recaptcha threshold := by
    simp only [recaptchaContribution]
    split
    · split
      · norm_num
      · split
        · rename_i hlow
          rw [jsRound]
          refine Int.le_floor.mpr ?_
          push_cast
          nlinarith
        · exact le_refl 0
    · exact le_refl 0
  have hl : 0 ≤ linkContribution fd := by
    simp only [linkContribution]
    split
    · rename_i h
      exact mul_nonneg (by norm_num) (le_min (by omega) (by norm_num))
    · exact le_refl 0
  have hscore : (checkSpam fd recaptcha threshold).score =
      min 100 (honeypotContribution fd + blacklistContribution fd +
        recaptchaContribution fd recaptcha threshold + linkContribution fd) := rfl
  have hIs : (checkSpam fd recaptcha threshold).isSpam =
      decide (50 ≤ (checkSpam fd recaptcha threshold).score) := rfl
  refine ⟨?_, ?_, ?_⟩
  · rw [hIs]
    exact decide_eq_true_iff
  · rw [hscore]
    exact le_min (by norm_num) (by linarith)
  · rw [hscore]
    exact min_le_left _ _

/-- C6: the blacklist score block is `20 * min(#distinct matched phrases, 3)`,
so 1, 2, 3 and 4-or-more distinct matches contribute 20, 40, 60 and 60. -/
theorem claim_C6_blacklist_scoring (fd : ParsedFormData) :
    blacklistContribution fd =
      20 * min ((checkBlacklist fd fd.specialFields._blacklist).length : ℤ) 3 ∧
    ((checkBlacklist fd fd.specialFields._blacklist).length = 1 →
      blacklistContribution fd = 20) ∧
    ((checkBlacklist fd fd.specialFields._blacklist).length = 2 →
      blacklistContribution fd = 40) ∧
    ((checkBlacklist fd fd.specialFields._blacklist).length = 3 →
      blacklistContribution fd = 60) ∧
    (4 ≤ (checkBlacklist fd fd.specialFields._blacklist).length →
      blacklistContribution fd = 60) := by
  have hmain : blacklistContribution fd =
      20 * min ((checkBlacklist fd fd.specialFields._blacklist).length : ℤ) 3 := by
    simp only [blacklistContribution]
    split
    · rfl
    · rename_i h
      have h0 : (checkBlacklist fd fd.specialFields._blacklist).length = 0 := by omega
      rw [h0]
      norm_num
  refine ⟨hmain, ?_, ?_, ?_, ?_⟩
  · intro h1
    rw [hmain, h1]
    norm_num
  · intro h2
    rw [hmain, h2]
    norm_num
  · intro h3
    rw [hmain, h3]
    norm_num
  · intro h4
    rw [hmain]
    have hm : min ((checkBlacklist fd fd.specialFields._blacklist).length : ℤ) 3 = 3 :=
      min_eq_right (by omega)
    rw [hm]
    norm_num

/-- Witness for C6: one message field matching four distinct default phrases. -/
theorem claim_C6_witness :
    4 ≤ (checkBlacklist
          { fields := [("message", FieldValue.str "viagra casino lottery wire transfer")],
            specialFields := {} }
          ({ fields := [("message", FieldValue.str "viagra casino lottery wire transfer")],
             specialFields := {} } : ParsedFormData).specialFields._blacklist).length ∧
    blacklistContribution
        { fields := [("message", FieldValue.str "viagra casino lottery wire transfer")],
          specialFields := {} } = 60 :=
  ⟨by decide,
   (claim_C6_blacklist_scoring
      { fields := [("message", FieldValue.str "viagra casino lottery wire transfer")],
        specialFields := {} }).2.2.2.2 (by decide)⟩

/-- C3: a submission whose honeypot trigger fires (truthy special honeypot
field, or a decoy-named field holding a string with non-empty trim) gets the
generic success JSON and performs no side effect at all, regardless of every
oracle outcome. -/
theorem claim_C3_honeypot_absorbed (fd : ParsedFormData) (resolved : Option (Form × Bool))
    (recaptcha : RecaptchaResult) (emailSendOk queueSendOk : Bool)
    (validatedNext : Option String) (isAjax : Bool) (submissionId : String)
    (h : jsTruthy fd.specialFields._honeypot = true ∨
         jsTruthy fd.specialFields._gotcha = true ∨
         ∃ name v, name ∈ HONEYPOT_FIELDS ∧
           fieldLookup fd.fields name = some (FieldValue.str v) ∧ jsTrim v ≠ "") :
    submitHandler fd resolved recaptcha emailSendOk queueSendOk validatedNext isAjax
        submissionId =
      { response := SubmitResponse.jsonSuccess, formsCreated := 0, submissionsCreated := 0,
        verificationTokensIssued := 0, verificationEmailsSent := 0,
        notificationEmailsSent := 0, webhookDeliveriesCreated := 0,
        webhookTasksEnqueued := 0 } := by
  have hhp : checkHoneypot fd = true := by
    rcases h with h1 | h2 | ⟨name, v, hmem, hlook, htrim⟩
    · rw [checkHoneypot, h1]
      rfl
    · rw [checkHoneypot, h2]
      simp
    · have hv : v ≠ "" := by
        intro hveq
        apply htrim
        rw [hveq]
        rfl
      rw [checkHoneypot]
      have hany : HONEYPOT_FIELDS.any (fun field =>
          match fieldLookup fd.fields field with
          | some (FieldValue.str v) => v ≠ "" && jsTrim v ≠ ""
          | _ => false) = true := by
        rw [List.any_eq_true]
        refine ⟨name, hmem, ?_⟩
        rw [hlook]
        simp [hv, htrim]
      rw [hany]
      simp
  rw [submitHandler.eq_def]
  simp [quickSpamCheck, hhp]

/-- Witness for C3: a filled `website` decoy field. -/
theorem claim_C3_witness :
    (jsTruthy ({ fields := [("website", FieldValue.str "spam")],
                 specialFields := {} } : ParsedFormData).specialFields._honeypot = true ∨
     jsTruthy ({ fields := [("website", FieldValue.str "spam")],
                 specialFields := {} } : ParsedFormData).specialFields._gotcha = true ∨
     ∃ name v, name ∈ HONEYPOT_FIELDS ∧
       fieldLookup ({ fields := [("website", FieldValue.str "spam")],
                      specialFields := {} } : ParsedFormData).fields name =
         some (FieldValue.str v) ∧ jsTrim v ≠ "") ∧
    submitHandler { fields := [("website", FieldValue.str "spam")], specialFields := {} }
        none { success := true, score := 1 } true true none false "s1" =
      { response := SubmitResponse.jsonSuccess, formsCreated := 0, submissionsCreated := 0,
        verificationTokensIssued := 0, verificationEmailsSent := 0,
        notificationEmailsSent := 0, webhookDeliveriesCreated := 0,
        webhookTasksEnqueued := 0 } :=
  ⟨Or.inr (Or.inr ⟨"website", "spam", by decide, by decide, by decide⟩),
   claim_C3_honeypot_absorbed _ none { success := true, score := 1 } true true none false "s1"
     (Or.inr (Or.inr ⟨"website", "spam", by decide, by decide, by decide⟩))⟩

/-- Helper: one queue-consumer run always performs exactly one outbound HTTP
call — the stored record's status is never consulted before delivering. -/
theorem processWebhookMessage_httpCalls (msg : WebhookQueueMessage) (rec : WebhookDelivery)
    (http : HttpOutcome) : (processWebhookMessage msg rec http).httpCalls = 1 := by
  cases http <;>
    simp [processWebhookMessage, deliverWebhook, shouldRetry, markWebhookFailed,
      updateWebhookDelivery] <;>
    split <;> rfl

/-- Counterexample to C1: a task re-delivered for a record that is already
`success` with `attempts = 3` is processed by sending the HTTP request again
(one call, not zero) and, on a 2xx, overwriting `attempts` with the task's
attempt number 4. -/
theorem claim_C1_counterexample :
    processWebhookMessage
        { delivery_id := "d1", submission_id := "s1", url := "https://example.com/hook",
          payload := { form_data := [],
                       meta := { form_id := "f1", submission_id := "s1",
                                 submitted_at := "t0", ip_address := none, tracking := none } },
          attempt := 4 }
        { id := "d1", submission_id := "s1", url := "https://example.com/hook",
          status := WebhookStatus.success, attempts := 3, last_error := none,
          next_retry_at := none }
        HttpOutcome.ok =
      { httpCalls := 1,
        record := { id := "d1", submission_id := "s1", url := "https://example.com/hook",
                    status := WebhookStatus.success, attempts := 4, last_error := none,
                    next_retry_at := none },
        enqueued := none } := by
  decide

/-- C1 as amended: processing a task whose record is already `success` still
performs exactly one HTTP call, and a 2xx response overwrites the record's
`attempts` with the task's attempt number (re-marking the status `success`). -/
theorem claim_C1_amended_redelivery (msg : WebhookQueueMessage) (rec : WebhookDelivery)
    (http : HttpOutcome) (_hsucc : rec.status = WebhookStatus.success) :
    (processWebhookMessage msg rec http).httpCalls = 1 ∧
    (processWebhookMessage msg rec HttpOutcome.ok).record.attempts = msg.attempt ∧
    (processWebhookMessage msg rec HttpOutcome.ok).record.status = WebhookStatus.success := by
  refine ⟨processWebhookMessage_httpCalls msg rec http, ?_, ?_⟩ <;>
    simp [processWebhookMessage, deliverWebhook, updateWebhookDelivery]

/-- Witness for the amended C1. -/
theorem claim_C1_amended_witness :
    ({ id := "d2", submission_id := "s2", url := "https://example.com/hook",
       status := WebhookStatus.success, attempts := 2, last_error := none,
       next_retry_at := none } : WebhookDelivery).status = WebhookStatus.success ∧
    ((processWebhookMessage
        { delivery_id := "d2", submission_id := "s2", url := "https://example.com/hook",
          payload := { form_data := [],
                       meta := { form_id := "f2", submission_id := "s2",
                                 submitted_at := "t0", ip_address := none, tracking := none } },
          attempt := 3 }
        { id := "d2", submission_id := "s2", url := "https://example.com/hook",
          status := WebhookStatus.success, attempts := 2, last_error := none,
          next_retry_at := none }
        (HttpOutcome.netError "timeout")).httpCalls = 1 ∧
     (processWebhookMessage
        { delivery_id := "d2", submission_id := "s2", url := "https://example.com/hook",
          payload := { form_data := [],
                       meta := { form_id := "f2", submission_id := "s2",
                                 submitted_at := "t0", ip_address := none, tracking := none } },
          attempt := 3 }
        { id := "d2", submission_id := "s2", url := "https://example.com/hook",
          status := WebhookStatus.success, attempts := 2, last_error := none,
          next_retry_at := none }
        HttpOutcome.ok).record.attempts =
       ({ delivery_id := "d2", submission_id := "s2", url := "https://example.com/hook",
          payload := { form_data := [],
                       meta := { form_id := "f2", submission_id := "s2",
                                 submitted_at := "t0", ip_address := none, tracking := none } },
          attempt := 3 } : WebhookQueueMessage).attempt ∧
     (processWebhookMessage
        { delivery_id := "d2", submission_id := "s2", url := "https://example.com/hook",
          payload := { form_data := [],
                       meta := { form_id := "f2", submission_id := "s2",
                                 submitted_at := "t0", ip_address := none, tracking := none } },
          attempt := 3 }
        { id := "d2", submission_id := "s2", url := "https://example.com/hook",
          status := WebhookStatus.success, attempts := 2, last_error := none,
          next_retry_at := none }
        HttpOutcome.ok).record.status = WebhookStatus.success) :=
  ⟨by decide,
   claim_C1_amended_redelivery
     { delivery_id := "d2", submission_id := "s2", url := "https://example.com/hook",
       payload := { form_data := [],
                    meta := { form_id := "f2", submission_id := "s2",
                              submitted_at := "t0", ip_address := none, tracking := none } },
       attempt := 3 }
     { id := "d2", submission_id := "s2", url := "https://example.com/hook",
       status := WebhookStatus.success, attempts := 2, last_error := none,
       next_retry_at := none }
     (HttpOutcome.netError "timeout") (by decide)⟩

/-- C2: a failed attempt `n < 5` enqueues the retry task with attempt `n + 1`
delayed by `calculateRetryDelay (n+1) = 2^n` seconds (so the realized delays
after failed attempts 1..4 are 2, 4, 8, 16, and the formula values for
attempts 1..5 are 2, 4, 8, 16, 32); the 5th failed attempt marks the record
`failed` and schedules nothing. -/
theorem claim_C2_retry_backoff (msg : WebhookQueueMessage) (rec : WebhookDelivery)
    (http : HttpOutcome) (hfail : http ≠ HttpOutcome.ok) :
    (msg.attempt < 5 →
      (processWebhookMessage msg rec http).enqueued =
        some (createRetryMessage msg (msg.attempt + 1),
              calculateRetryDelay (msg.attempt + 1)) ∧
      calculateRetryDelay (msg.attempt + 1) = (2 : ℚ) ^ msg.attempt ∧
      (processWebhookMessage msg rec http).record.status = rec.status) ∧
    (msg.attempt = 5 →
      (processWebhookMessage msg rec http).enqueued = none ∧
      (processWebhookMessage msg rec http).record.status = WebhookStatus.failed) ∧
    (calculateRetryDelay 2 = 2 ∧ calculateRetryDelay 3 = 4 ∧ calculateRetryDelay 4 = 8 ∧
     calculateRetryDelay 5 = 16 ∧ calculateRetryDelay 6 = 32) := by
  have hdelay : calculateRetryDelay (msg.attempt + 1) = (2 : ℚ) ^ msg.attempt := by
    have h : ((msg.attempt + 1 : ℕ) : ℤ) - 1 = (msg.attempt : ℤ) := by push_cast; ring
    rw [calculateRetryDelay, BASE_DELAY_SECONDS, h, one_mul, zpow_natCast]
  refine ⟨?_, ?_, ?_⟩
  · intro hlt
    refine ⟨?_, hdelay, ?_⟩ <;>
      cases http <;>
        simp_all [processWebhookMessage, deliverWebhook, shouldRetry, MAX_RETRY_ATTEMPTS,
          updateWebhookDelivery]
  · intro heq
    constructor <;>
      cases http <;>
        simp_all [processWebhookMessage, deliverWebhook, shouldRetry, MAX_RETRY_ATTEMPTS,
          markWebhookFailed, updateWebhookDelivery]
  · refine ⟨?_, ?_, ?_, ?_, ?_⟩ <;> norm_num [calculateRetryDelay, BASE_DELAY_SECONDS]

/-- Witness for C2: a 500 response on attempt 3 enqueues attempt 4 after
`calculateRetryDelay 4` seconds. -/
theorem claim_C2_witness :
    (HttpOutcome.httpError 500 "boom" ≠ HttpOutcome.ok) ∧
    (({ delivery_id := "d3", submission_id := "s3", url := "https://example.com/hook",
        payload := { form_data := [],
                     meta := { form_id := "f3", submission_id := "s3",
                               submitted_at := "t0", ip_address := none, tracking := none } },
        attempt := 3 } : WebhookQueueMessage).attempt < 5) ∧
    (processWebhookMessage
        { delivery_id := "d3", submission_id := "s3", url := "https://example.com/hook",
          payload := { form_data := [],
                       meta := { form_id := "f3", submission_id := "s3",
                                 submitted_at := "t0", ip_address := none, tracking := none } },
          attempt := 3 }
        { id := "d3", submission_id := "s3", url := "https://example.com/hook",
          status := WebhookStatus.pending, attempts := 2, last_error := none,
          next_retry_at := none }
        (HttpOutcome.httpError 500 "boom")).enqueued =
      some (createRetryMessage
              { delivery_id := "d3", submission_id := "s3", url := "https://example.com/hook",
                payload := { form_data := [],
                             meta := { form_id := "f3", submission_id := "s3",
                                       submitted_at := "t0", ip_address := none,
                                       tracking := none } },
                attempt := 3 }
              (({ delivery_id := "d3", submission_id := "s3", url := "https://example.com/hook",
                  payload := { form_data := [],
                               meta := { form_id := "f3", submission_id := "s3",
                                         submitted_at := "t0", ip_address := none,
                                         tracking := none } },
                  attempt := 3 } : WebhookQueueMessage).attempt + 1),
            calculateRetryDelay
              (({ delivery_id := "d3", submission_id := "s3", url := "https://example.com/hook",
                  payload := { form_data := [],
                               meta := { form_id := "f3", submission_id := "s3",
                                         submitted_at := "t0", ip_address := none,
                                         tracking := none } },
                  attempt := 3 } : WebhookQueueMessage).attempt + 1)) :=
  ⟨by decide, by decide,
   ((claim_C2_retry_backoff
      { delivery_id := "d3", submission_id := "s3", url := "https://example.com/hook",
        payload := { form_data := [],
                     meta := { form_id := "f3", submission_id := "s3",
                               submitted_at := "t0", ip_address := none, tracking := none } },
        attempt := 3 }
      { id := "d3", submission_id := "s3", url := "https://example.com/hook",
        status := WebhookStatus.pending, attempts := 2, last_error := none,
        next_retry_at := none }
      (HttpOutcome.httpError 500 "boom") (by decide)).1 (by decide)).1⟩


theorem kvGet_delete (kv : List (String × KVVal)) (k k' : String) :
    kvGet (kvDelete kv k) k' = if k' = k then none else kvGet kv k' := by
  induction kv with
  | nil =>
    simp only [kvDelete, kvGet]
    split <;> rfl
  | cons p rest ih =>
    obtain ⟨a, v⟩ := p
    simp only [kvDelete]
    by_cases hak : a = k
    · rw [if_pos hak, ih]
      by_cases hk' : k' = k
      · simp [hk']
      · have hak' : ¬ a = k' := fun h => hk' (h.symm.trans hak)
        simp [hk', kvGet, hak']
    · rw [if_neg hak]
      simp only [kvGet]
      rw [ih]
      by_cases hak' : a = k'
      · have hk' : ¬ k' = k := fun h => hak (hak'.trans h)
        simp [hak', hk']
      · simp [hak']

theorem kvGet_put_same (kv : List (String × KVVal)) (k : String) (v : KVVal) :
    kvGet (kvPut kv k v) k = some v := by
  simp [kvPut, kvGet]

theorem kvGet_put_ne (kv : List (String × KVVal)) (k : String) (v : KVVal) (k' : String)
    (h : k' ≠ k) : kvGet (kvPut kv k v) k' = kvGet kv k' := by
  rw [kvPut,
    show kvGet ((k, v) :: kvDelete kv k) k' =
      if k = k' then some v else kvGet (kvDelete kv k) k' from rfl,
    if_neg (fun he => h he.symm), kvGet_delete, if_neg h]

/-- The reverse-lookup key is the forward key of the string `email:<email>`. -/
theorem verify_email_key (e : String) :
    "verify:email:" ++ e = "verify:" ++ ("email:" ++ e) := by
  rw [← string_append_assoc]
  have h : ("verify:" : String) ++ "email:" = "verify:email:" := by decide
  rw [h]

/-- C8: issuing a token from an empty store makes `verify` answer not-found on
any other string, found on the token itself, and not-found again on the token
after `consume` (one-time use).  The hypotheses say the generated token is a
lowercase-hex `generateToken` output: not itself a JSON number literal and
not of the reserved `email:`-prefixed shape. -/
theorem claim_C8_token_one_time_use (email sid c token s : String) (fd : ParsedFormData)
    (hjson : jsonNumberLike token = false)
    (hcol : token ≠ "email:" ++ jsTrim (jsToLower email))
    (hs : s ≠ token) :
    verifyToken (createVerificationToken [] email sid fd token c).2 s =
      VerifyLookup.notFound ∧
    verifyToken (createVerificationToken [] email sid fd token c).2 token =
      VerifyLookup.found { email := jsTrim (jsToLower email), submission_id := sid,
                           form_data := fd, created_at := c } ∧
    verifyToken
      (deleteVerificationToken (createVerificationToken [] email sid fd token c).2 token
        (jsTrim (jsToLower email))) token = VerifyLookup.notFound := by
  have hkv : (createVerificationToken [] email sid fd token c).2 =
      kvPut (kvPut [] ("verify:" ++ token)
          (KVVal.vdata { email := jsTrim (jsToLower email), submission_id := sid,
                         form_data := fd, created_at := c }))
        ("verify:email:" ++ jsTrim (jsToLower email)) (KVVal.vtok token) := rfl
  have hne : ("verify:" ++ token : String) ≠
      "verify:email:" ++ jsTrim (jsToLower email) := by
    rw [verify_email_key]
    intro h
    exact hcol ((string_append_right_inj _ _ _).mp h)
  refine ⟨?_, ?_, ?_⟩
  · by_cases hse : s = "email:" ++ jsTrim (jsToLower email)
    · have hget : kvGet (createVerificationToken [] email sid fd token c).2
          ("verify:" ++ s) = some (KVVal.vtok token) := by
        rw [hkv, show ("verify:" ++ s : String) =
            "verify:email:" ++ jsTrim (jsToLower email) from by rw [verify_email_key, hse],
          kvGet_put_same]
      rw [verifyToken, hget]
      simp [hjson]
    · have h1 : ("verify:" ++ s : String) ≠
          "verify:email:" ++ jsTrim (jsToLower email) := by
        rw [verify_email_key]
        intro h
        exact hse ((string_append_right_inj _ _ _).mp h)
      have h2 : ("verify:" ++ s : String) ≠ "verify:" ++ token := by
        intro h
        exact hs ((string_append_right_inj _ _ _).mp h)
      have hget : kvGet (createVerificationToken [] email sid fd token c).2
          ("verify:" ++ s) = none := by
        rw [hkv, kvGet_put_ne _ _ _ _ h1, kvGet_put_ne _ _ _ _ h2]
        rfl
      rw [verifyToken, hget]
  · have hget : kvGet (createVerificationToken [] email sid fd token c).2
        ("verify:" ++ token) =
        some (KVVal.vdata { email := jsTrim (jsToLower email), submission_id := sid,
                            form_data := fd, created_at := c }) := by
      rw [hkv, kvGet_put_ne _ _ _ _ hne, kvGet_put_same]
    rw [verifyToken, hget]
  · have hget : kvGet
        (deleteVerificationToken (createVerificationToken [] email sid fd token c).2 token
          (jsTrim (jsToLower email))) ("verify:" ++ token) = none := by
      rw [deleteVerificationToken, kvGet_delete]
      split
      · rfl
      · rw [kvGet_delete, if_pos rfl]
    rw [verifyToken, hget]

/-- Witness for C8 at a concrete email, token and probe string. -/
theorem claim_C8_witness :
    jsonNumberLike "abcd" = false ∧
    ("abcd" : String) ≠ "email:" ++ jsTrim (jsToLower "a@example.com") ∧
    ("zzzz" : String) ≠ "abcd" ∧
    (verifyToken (createVerificationToken [] "a@example.com" "s1"
        { fields := [], specialFields := {} } "abcd" "t0").2 "zzzz" =
      VerifyLookup.notFound ∧
    verifyToken (createVerificationToken [] "a@example.com" "s1"
        { fields := [], specialFields := {} } "abcd" "t0").2 "abcd" =
      VerifyLookup.found { email := jsTrim (jsToLower "a@example.com"), submission_id := "s1",
                           form_data := { fields := [], specialFields := {} },
                           created_at := "t0" } ∧
    verifyToken
      (deleteVerificationToken (createVerificationToken [] "a@example.com" "s1"
          { fields := [], specialFields := {} } "abcd" "t0").2 "abcd"
        (jsTrim (jsToLower "a@example.com"))) "abcd" = VerifyLookup.notFound) :=
  ⟨by decide, by decide, by decide,
   claim_C8_token_one_time_use "a@example.com" "s1" "t0" "abcd" "zzzz"
     { fields := [], specialFields := {} } (by decide) (by decide) (by decide)⟩

/-- Counterexample to C4: issue token `aaaa` for `a@example.com`, then issue
`bbbb` for the same email (the reverse pointer now references only `bbbb`);
redeeming the stale `aaaa` does not fail closed — the handler renders the
success page and marks the form verified. -/
theorem claim_C4_counterexample :
    (verifyRoute
        (createVerificationToken
          (createVerificationToken [] "a@example.com" "s1"
            { fields := [], specialFields := {} } "aaaa" "t1").2
          "a@example.com" "s2" { fields := [], specialFields := {} } "bbbb" "t2").2
        (fun e => if e = "a@example.com" then
            some { id := "form-1", email := "a@example.com", email_hash := "h",
                   verified_at := none,
                   settings := { default_subject := "New form submission",
                                 default_template := some "basic",
                                 recaptcha_enabled := true, recaptcha_threshold := 1,
                                 allowed_origins := ["*"], webhook_url := none,
                                 cc_emails := [] },
                   user_id := none }
          else none)
        "aaaa").response = VerifyResponse.successPage "a@example.com" ∧
    (verifyRoute
        (createVerificationToken
          (createVerificationToken [] "a@example.com" "s1"
            { fields := [], specialFields := {} } "aaaa" "t1").2
          "a@example.com" "s2" { fields := [], specialFields := {} } "bbbb" "t2").2
        (fun e => if e = "a@example.com" then
            some { id := "form-1", email := "a@example.com", email_hash := "h",
                   verified_at := none,
                   settings := { default_subject := "New form submission",
                                 default_template := some "basic",
                                 recaptcha_enabled := true, recaptcha_threshold := 1,
                                 allowed_origins := ["*"], webhook_url := none,
                                 cc_emails := [] },
                   user_id := none }
          else none)
        "aaaa").verifiedFormId = some "form-1" := by
  decide

/-- C4 as amended: issuing a second token only overwrites the email reverse
pointer; the first token's own entry survives, `verifyToken` consults only
that entry, and so the stale token still redeems and the handler marks the
recipient form verified on its basis. -/
theorem claim_C4_amended_stale_token_redeems (kv : List (String × KVVal))
    (email s1 s2 t1 t2 c1 c2 : String) (fd1 fd2 : ParsedFormData)
    (resolve : String → Option Form) (form : Form)
    (hne : t1 ≠ t2)
    (hcol : t1 ≠ "email:" ++ jsTrim (jsToLower email))
    (hres : resolve (jsTrim (jsToLower email)) = some form) :
    verifyToken
        (createVerificationToken
          (createVerificationToken kv email s1 fd1 t1 c1).2 email s2 fd2 t2 c2).2 t1 =
      VerifyLookup.found { email := jsTrim (jsToLower email), submission_id := s1,
                           form_data := fd1, created_at := c1 } ∧
    (verifyRoute
        (createVerificationToken
          (createVerificationToken kv email s1 fd1 t1 c1).2 email s2 fd2 t2 c2).2
        resolve t1).response = VerifyResponse.successPage (jsTrim (jsToLower email)) ∧
    (verifyRoute
        (createVerificationToken
          (createVerificationToken kv email s1 fd1 t1 c1).2 email s2 fd2 t2 c2).2
        resolve t1).verifiedFormId = some form.id := by
  have h1 : ("verify:" ++ t1 : String) ≠ "verify:email:" ++ jsTrim (jsToLower email) := by
    rw [verify_email_key]
    intro h
    exact hcol ((string_append_right_inj _ _ _).mp h)
  have h2 : ("verify:" ++ t1 : String) ≠ "verify:" ++ t2 := by
    intro h
    exact hne ((string_append_right_inj _ _ _).mp h)
  have hget : kvGet
      (createVerificationToken
        (createVerificationToken kv email s1 fd1 t1 c1).2 email s2 fd2 t2 c2).2
      ("verify:" ++ t1) =
      some (KVVal.vdata { email := jsTrim (jsToLower email), submission_id := s1,
                          form_data := fd1, created_at := c1 }) := by
    show kvGet (kvPut (kvPut (createVerificationToken kv email s1 fd1 t1 c1).2
        ("verify:" ++ t2) _) ("verify:email:" ++ jsTrim (jsToLower email)) _)
        ("verify:" ++ t1) = _
    rw [kvGet_put_ne _ _ _ _ h1, kvGet_put_ne _ _ _ _ h2]
    show kvGet (kvPut (kvPut kv ("verify:" ++ t1) _)
        ("verify:email:" ++ jsTrim (jsToLower email)) _) ("verify:" ++ t1) = _
    rw [kvGet_put_ne _ _ _ _ h1, kvGet_put_same]
  have hfound : verifyToken
      (createVerificationToken
        (createVerificationToken kv email s1 fd1 t1 c1).2 email s2 fd2 t2 c2).2 t1 =
      VerifyLookup.found { email := jsTrim (jsToLower email), submission_id := s1,
                           form_data := fd1, created_at := c1 } := by
    rw [verifyToken, hget]
  refine ⟨hfound, ?_, ?_⟩ <;> simp [verifyRoute, hfound, hres]

/-- Witness for the amended C4. -/
theorem claim_C4_amended_witness :
    ("cccc" : String) ≠ "dddd" ∧
    ("cccc" : String) ≠ "email:" ++ jsTrim (jsToLower "b@example.com") ∧
    ((fun e => if e = "b@example.com" then
        some ({ id := "form-2", email := "b@example.com", email_hash := "h2",
                verified_at := none,
                settings := { default_subject := "s", default_template := none,
                              recaptcha_enabled := true, recaptcha_threshold := 1,
                              allowed_origins := [], webhook_url := none,
                              cc_emails := [] },
                user_id := none } : Form)
      else none) (jsTrim (jsToLower "b@example.com")) =
      some { id := "form-2", email := "b@example.com", email_hash := "h2",
             verified_at := none,
             settings := { default_subject := "s", default_template := none,
                           recaptcha_enabled := true, recaptcha_threshold := 1,
                           allowed_origins := [], webhook_url := none,
                           cc_emails := [] },
             user_id := none }) ∧
    (verifyToken
        (createVerificationToken
          (createVerificationToken [] "b@example.com" "s1"
            { fields := [], specialFields := {} } "cccc" "t1").2
          "b@example.com" "s2" { fields := [], specialFields := {} } "dddd" "t2").2 "cccc" =
      VerifyLookup.found { email := jsTrim (jsToLower "b@example.com"),
                           submission_id := "s1",
                           form_data := { fields := [], specialFields := {} },
                           created_at := "t1" } ∧
    (verifyRoute
        (createVerificationToken
          (createVerificationToken [] "b@example.com" "s1"
            { fields := [], specialFields := {} } "cccc" "t1").2
          "b@example.com" "s2" { fields := [], specialFields := {} } "dddd" "t2").2
        (fun e => if e = "b@example.com" then
            some { id := "form-2", email := "b@example.com", email_hash := "h2",
                   verified_at := none,
                   settings := { default_subject := "s", default_template := none,
                                 recaptcha_enabled := true, recaptcha_threshold := 1,
                                 allowed_origins := [], webhook_url := none,
                                 cc_emails := [] },
                   user_id := none }
          else none)
        "cccc").response = VerifyResponse.successPage (jsTrim (jsToLower "b@example.com")) ∧
    (verifyRoute
        (createVerificationToken
          (createVerificationToken [] "b@example.com" "s1"
            { fields := [], specialFields := {} } "cccc" "t1").2
          "b@example.com" "s2" { fields := [], specialFields := {} } "dddd" "t2").2
        (fun e => if e = "b@example.com" then
            some { id := "form-2", email := "b@example.com", email_hash := "h2",
                   verified_at := none,
                   settings := { default_subject := "s", default_template := none,
                                 recaptcha_enabled := true, recaptcha_threshold := 1,
                                 allowed_origins := [], webhook_url := none,
                                 cc_emails := [] },
                   user_id := none }
          else none)
        "cccc").verifiedFormId =
      some ({ id := "form-2", email := "b@example.com", email_hash := "h2",
              verified_at := none,
              settings := { default_subject := "s", default_template := none,
                            recaptcha_enabled := true, recaptcha_threshold := 1,
                            allowed_origins := [], webhook_url := none,
                            cc_emails := [] },
              user_id := none } : Form).id) :=
  ⟨by decide, by decide, rfl,
   claim_C4_amended_stale_token_redeems [] "b@example.com" "s1" "s2" "cccc" "dddd" "t1" "t2"
     { fields := [], specialFields := {} } { fields := [], specialFields := {} }
     (fun e => if e = "b@example.com" then
         some { id := "form-2", email := "b@example.com", email_hash := "h2",
                verified_at := none,
                settings := { default_subject := "s", default_template := none,
                              recaptcha_enabled := true, recaptcha_threshold := 1,
                              allowed_origins := [], webhook_url := none,
                              cc_emails := [] },
                user_id := none }
       else none)
     { id := "form-2", email := "b@example.com", email_hash := "h2",
       verified_at := none,
       settings := { default_subject := "s", default_template := none,
                     recaptcha_enabled := true, recaptcha_threshold := 1,
                     allowed_origins := [], webhook_url := none, cc_emails := [] },
       user_id := none }
     (by decide) (by decide) rfl⟩

/-- Counterexample to C9: a clean submission to a verified form with a
configured webhook URL, where the awaited queue send throws — the submitter
gets a server error response, not the success response. -/
theorem claim_C9_counterexample :
    submitHandler { fields := [("name", FieldValue.str "A")], specialFields := {} }
        (some ({ id := "form-1", email := "owner@example.com", email_hash := "h",
                 verified_at := some "2024-01-01",
                 settings := { default_subject := "s", default_template := none,
                               recaptcha_enabled := true, recaptcha_threshold := 1,
                               allowed_origins := [],
                               webhook_url := some "https://example.com/hook",
                               cc_emails := [] },
                 user_id := none }, false))
        { success := true, score := 1 } true false none false "s1" =
      { response := SubmitResponse.serverError, formsCreated := 0, submissionsCreated := 1,
        verificationTokensIssued := 0, verificationEmailsSent := 0,
        notificationEmailsSent := 1, webhookDeliveriesCreated := 1,
        webhookTasksEnqueued := 0 } := by
  decide

/-- C9 as amended: in the verified path with a webhook configured, the
delivery record creation and enqueue are awaited before the response; when
the enqueue throws, the error propagates and the submitter receives a server
error instead of the success response. -/
theorem claim_C9_amended_enqueue_error_propagates (fd : ParsedFormData) (form : Form)
    (isNew : Bool) (recaptcha : RecaptchaResult) (validatedNext : Option String)
    (isAjax : Bool) (submissionId url : String)
    (hhp : quickSpamCheck fd = false)
    (hspam : (checkSpam fd recaptcha form.settings.recaptcha_threshold).isSpam = false)
    (hver : isFormVerified form = true)
    (hurl : effectiveWebhookUrl fd form = some url) :
    submitHandler fd (some (form, isNew)) recaptcha true false validatedNext isAjax
        submissionId =
      { response := SubmitResponse.serverError,
        formsCreated := if isNew then 1 else 0, submissionsCreated := 1,
        verificationTokensIssued := 0, verificationEmailsSent := 0,
        notificationEmailsSent := 1, webhookDeliveriesCreated := 1,
        webhookTasksEnqueued := 0 } := by
  rw [submitHandler.eq_def]
  simp [hhp, hspam, hver, hurl]

/-- Witness for the amended C9. -/
theorem claim_C9_amended_witness :
    quickSpamCheck { fields := [("msg", FieldValue.str "hello")], specialFields := {} } =
      false ∧
    (checkSpam { fields := [("msg", FieldValue.str "hello")], specialFields := {} }
        { success := true, score := 1 }
        ({ id := "form-3", email := "o@example.com", email_hash := "h3",
           verified_at := some "2024-02-02",
           settings := { default_subject := "s", default_template := none,
                         recaptcha_enabled := true, recaptcha_threshold := 1,
                         allowed_origins := [],
                         webhook_url := some "https://example.com/hook3",
                         cc_emails := [] },
           user_id := none } : Form).settings.recaptcha_threshold).isSpam = false ∧
    isFormVerified { id := "form-3", email := "o@example.com", email_hash := "h3",
                     verified_at := some "2024-02-02",
                     settings := { default_subject := "s", default_template := none,
                                   recaptcha_enabled := true, recaptcha_threshold := 1,
                                   allowed_origins := [],
                                   webhook_url := some "https://example.com/hook3",
                                   cc_emails := [] },
                     user_id := none } = true ∧
    effectiveWebhookUrl { fields := [("msg", FieldValue.str "hello")], specialFields := {} }
        { id := "form-3", email := "o@example.com", email_hash := "h3",
          verified_at := some "2024-02-02",
          settings := { default_subject := "s", default_template := none,
                        recaptcha_enabled := true, recaptcha_threshold := 1,
                        allowed_origins := [],
                        webhook_url := some "https://example.com/hook3",
                        cc_emails := [] },
          user_id := none } = some "https://example.com/hook3" ∧
    submitHandler { fields := [("msg", FieldValue.str "hello")], specialFields := {} }
        (some ({ id := "form-3", email := "o@example.com", email_hash := "h3",
                 verified_at := some "2024-02-02",
                 settings := { default_subject := "s", default_template := none,
                               recaptcha_enabled := true, recaptcha_threshold := 1,
                               allowed_origins := [],
                               webhook_url := some "https://example.com/hook3",
                               cc_emails := [] },
                 user_id := none }, true))
        { success := true, score := 1 } true false none true "s9" =
      { response := SubmitResponse.serverError, formsCreated := if true then 1 else 0,
        submissionsCreated := 1, verificationTokensIssued := 0,
        verificationEmailsSent := 0, notificationEmailsSent := 1,
        webhookDeliveriesCreated := 1, webhookTasksEnqueued := 0 } :=
  ⟨by decide, by decide, by decide, by decide,
   claim_C9_amended_enqueue_error_propagates
     { fields := [("msg", FieldValue.str "hello")], specialFields := {} }
     { id := "form-3", email := "o@example.com", email_hash := "h3",
       verified_at := some "2024-02-02",
       settings := { default_subject := "s", default_template := none,
                     recaptcha_enabled := true, recaptcha_threshold := 1,
                     allowed_origins := [],
                     webhook_url := some "https://example.com/hook3", cc_emails := [] },
       user_id := none }
     true { success := true, score := 1 } none true "s9" "https://example.com/hook3"
     (by decide) (by decide) (by decide) (by decide)⟩
